import Mathlib

/-!
Shallow embedding of the video-archive-tool pipeline core, translated from the
Python sources:

- `src/processors/scene_detector.py` (Scene model, detection conversion,
  export/import, merging),
- `src/gui/scene_selection_window.py` (group building),
- `src/database/state_manager.py` (SessionStore state machine),
- `src/main_phase2.py` (pipeline orchestration, `process_video`),
- `src/processors/batch_processor.py` (batch executor).

Python floats carrying media timestamps are modelled as rationals (no
floating-point rounding is exercised by any verified property: values are only
copied, compared and added), machine timestamps as integers (seconds), and
fallible code as `Except`/`Option` values.
-/

namespace VideoArchive

/-! ## Scene model (`src/processors/scene_detector.py`) -/

/-- The `Scene` dataclass of `scene_detector.py`. -/
structure Scene where
  scene_number : Int
  start_frame : Int
  end_frame : Int
  start_time : Rat
  end_time : Rat
  duration : Rat
  thumbnail_path : Option String := none
deriving DecidableEq, Repr

/-- One `(start_time, end_time)` pair returned by the PySceneDetect collaborator:
each endpoint exposes both a frame count and a second count
(`get_frames` / `get_seconds` in the source). -/
structure Boundary where
  startFrames : Int
  endFrames : Int
  startSeconds : Rat
  endSeconds : Rat
deriving DecidableEq, Repr

/-- The conversion loop of `SceneDetector.detect_scenes`: Python
`enumerate(scene_list, start=1)` threading the 1-based index. -/
def scenesFromBoundaries : Int → List Boundary → List Scene
  | _, [] => []
  | idx, b :: rest =>
      { scene_number := idx
        start_frame := b.startFrames
        end_frame := b.endFrames
        start_time := b.startSeconds
        end_time := b.endSeconds
        duration := b.endSeconds - b.startSeconds } :: scenesFromBoundaries (idx + 1) rest

/-- `SceneDetector.detect_scenes`, with the detector collaborator output
(the ordered boundary list) passed in explicitly. -/
def detect_scenes (scene_list : List Boundary) : List Scene :=
  scenesFromBoundaries 1 scene_list

/-- The `fps` and `duration` fields of the probe-info dict that
`validate_master_video` returns. -/
structure VideoInfo where
  width : Int
  height : Int
  fps : Rat
  duration : Rat
deriving DecidableEq, Repr

/-- Python `int(x)`: truncation toward zero. -/
def pyInt (q : Rat) : Int :=
  if 0 ≤ q then q.floor else q.ceil

/-- The single whole-video scene synthesized in `process_video` when detection
reports no scenes (`main_phase2.py`, the `if not scenes` branch). -/
def fullVideoScene (info : VideoInfo) : Scene :=
  { scene_number := 1
    start_frame := 0
    end_frame := pyInt (info.fps * info.duration)
    start_time := 0
    end_time := info.duration
    duration := info.duration }

/-- The detect-scenes pipeline step of `process_video`: convert the detector
output, falling back to one full-video scene when the result is empty. -/
def detectScenesStep (info : VideoInfo) (scene_list : List Boundary) : List Scene :=
  let scenes := detect_scenes scene_list
  if scenes.isEmpty then [fullVideoScene info] else scenes

/-! ## Scene data export/import (`export_scene_data` / `import_scene_data`) -/

/-- A JSON-able Python value as stored in the scene dictionaries. -/
inductive PyValue where
  | int (n : Int)
  | num (q : Rat)
  | str (s : String)
  | none
deriving DecidableEq, Repr

/-- A Python dict in insertion order, as produced by the dict literal in
`export_scene_data` and consumed by `import_scene_data`. -/
abbrev SceneDict := List (String × PyValue)

/-- Python `d[k]` / `d.get(k)` lookup on an insertion-ordered dict. -/
def dictGet (d : SceneDict) (k : String) : Option PyValue :=
  (d.find? (fun kv => kv.1 == k)).map (fun kv => kv.2)

/-- The dict literal built for one scene by `SceneDetector.export_scene_data`,
fields in source order. -/
def exportSceneDict (s : Scene) : SceneDict :=
  [("scene_number", .int s.scene_number),
   ("start_frame", .int s.start_frame),
   ("end_frame", .int s.end_frame),
   ("start_time", .num s.start_time),
   ("end_time", .num s.end_time),
   ("duration", .num s.duration),
   ("thumbnail_path", match s.thumbnail_path with
      | Option.some p => .str p
      | Option.none => .none)]

/-- `SceneDetector.export_scene_data`. -/
def export_scene_data (scenes : List Scene) : List SceneDict :=
  scenes.map exportSceneDict

/-- One element of the comprehension in `SceneDetector.import_scene_data`:
required keys are indexed (`KeyError` on absence, modelled as failure), the
thumbnail uses `dict.get` with a `None` default; a value of the wrong type for
a statically typed `Scene` field is likewise a failure. -/
def importSceneDict (d : SceneDict) : Option Scene := do
  let PyValue.int n ← dictGet d "scene_number" | Option.none
  let PyValue.int sf ← dictGet d "start_frame" | Option.none
  let PyValue.int ef ← dictGet d "end_frame" | Option.none
  let PyValue.num st ← dictGet d "start_time" | Option.none
  let PyValue.num et ← dictGet d "end_time" | Option.none
  let PyValue.num du ← dictGet d "duration" | Option.none
  let thumb ← match dictGet d "thumbnail_path" with
    | Option.some (PyValue.str p) => Option.some (Option.some p)
    | Option.some PyValue.none => Option.some Option.none
    | Option.none => Option.some Option.none
    | _ => Option.none
  pure { scene_number := n, start_frame := sf, end_frame := ef,
         start_time := st, end_time := et, duration := du,
         thumbnail_path := thumb }

/-- `SceneDetector.import_scene_data`: the list comprehension aborts at the
first bad element. -/
def import_scene_data : List SceneDict → Option (List Scene)
  | [] => Option.some []
  | d :: rest => do
      let s ← importSceneDict d
      let tail ← import_scene_data rest
      pure (s :: tail)

/-- A valid serialized scene: exactly the seven fields of the export format,
in export order, with values of the types the `Scene` dataclass declares. -/
def validSceneDict : SceneDict → Bool
  | [("scene_number", PyValue.int _),
     ("start_frame", PyValue.int _),
     ("end_frame", PyValue.int _),
     ("start_time", PyValue.num _),
     ("end_time", PyValue.num _),
     ("duration", PyValue.num _),
     ("thumbnail_path", PyValue.str _)] => true
  | [("scene_number", PyValue.int _),
     ("start_frame", PyValue.int _),
     ("end_frame", PyValue.int _),
     ("start_time", PyValue.num _),
     ("end_time", PyValue.num _),
     ("duration", PyValue.num _),
     ("thumbnail_path", PyValue.none)] => true
  | _ => false

/-! ## Group building (`SceneSelectionWindow._add_to_group`) -/

/-- The scene numbers whose checkbox variable is set, in scene-list order
(the `selected` comprehension in `_add_to_group`). -/
def selectedNumbers (scenes : List Scene) (checked : Int → Bool) : List Int :=
  (scenes.filter (fun s => checked s.scene_number)).map Scene.scene_number

/-- `SceneSelectionWindow._add_to_group`: reject selections of fewer than two
scenes (warning dialog, `groups` untouched), otherwise append the selection as
a new group. -/
def add_to_group (scenes : List Scene) (checked : Int → Bool)
    (groups : List (List Int)) : List (List Int) :=
  let selected := selectedNumbers scenes checked
  if selected.length < 2 then groups else groups ++ [selected]

/-- `SceneDetector.merge_scenes`: select the named scenes, fail when none
match, sort by start time, and combine first and last into one scene. -/
def merge_scenes (scenes : List Scene) (scene_numbers : List Int) :
    Except String Scene :=
  let toMerge := scenes.filter (fun s => scene_numbers.contains s.scene_number)
  match h : toMerge.mergeSort (fun a b => a.start_time ≤ b.start_time) with
  | [] => .error "No scenes to merge"
  | first :: rest =>
      let last := (first :: rest).getLast (by simp)
      .ok { scene_number := first.scene_number
            start_frame := first.start_frame
            end_frame := last.end_frame
            start_time := first.start_time
            end_time := last.end_time
            duration := last.end_time - first.start_time }

/-! ## SessionStore (`src/database/state_manager.py`)

The SQLite tables become lists of rows; timestamps are integer seconds and
`CURRENT_TIMESTAMP` is passed in as an explicit `now` argument.  The
`processing_state` columns that no `StateManager` method ever writes
(`custom_settings`, `scenes_data`, `selected_scenes`, `grouped_scenes`,
`process_metadata`) are omitted: they stay NULL for the whole life of a row.
Each store mutation is one atomic step, mirroring the serialization of all
writers through the single SQLite connection. -/

/-- One row of the `processing_state` table. -/
structure SessionRow where
  session_id : String
  artwork_name : String
  project_date : String
  master_path : String
  rd_folder_path : Option String
  output_path : String
  preset_id : String
  encoder_type : String
  scene_threshold : Rat
  min_scene_length : Int
  total_operations : Int
  completed_operations : Int
  current_operation : Option String
  operation_details : Option String
  status : String
  error_message : Option String
  created_at : Int
  updated_at : Int
  completed_at : Option Int
deriving DecidableEq, Repr

/-- One row of the `operation_log` table (columns written by `log_operation`;
the remaining columns stay NULL). -/
structure OperationLogRow where
  session_id : String
  operation_type : String
  operation_name : String
  sequence_number : Int
  status : String
  progress : Rat
  input_file : Option String
  output_files : String
  error_details : Option String
deriving DecidableEq, Repr

/-- One row of the `file_registry` table (columns written by `register_file`). -/
structure FileRegistryRow where
  session_id : String
  file_path : String
  file_type : String
  file_category : String
  file_size_bytes : Option Int
  resolution : Option String
  aspect_ratio : Option String
  source_file : Option String
deriving DecidableEq, Repr

/-- The persisted database. -/
structure Database where
  processing_state : List SessionRow := []
  operation_log : List OperationLogRow := []
  file_registry : List FileRegistryRow := []
deriving DecidableEq, Repr

/-- The `StateManager` object: the connection plus the in-memory
`self.session_id` field. -/
structure StateManager where
  db : Database := {}
  session_id : Option String := Option.none
deriving DecidableEq, Repr

/-- A freshly initialized manager over an empty database. -/
def emptyManager : StateManager := {}

/-- Python truthiness of `self.session_id` (`if not self.session_id`):
falsy when `None` or the empty string. -/
def sidTruthy : Option String → Bool
  | Option.none => false
  | Option.some s => !(s == "")

/-- The session id actually used in SQL parameters once the truthiness check
passed. -/
def activeSid (m : StateManager) : String := m.session_id.getD ""

/-- The keyword parameters of `create_session` with the defaults of the
source (`kwargs.get` defaults). -/
structure CreateParams where
  artwork_name : String
  project_date : String
  master_path : String
  output_path : String
  preset_id : String
  total_operations : Int
  rd_folder_path : Option String := Option.none
  encoder_type : String := "x264"
  scene_threshold : Rat := 30
  min_scene_length : Int := 15
deriving DecidableEq, Repr

/-- `StateManager.create_session`.  The generated unique id
(`vat_<timestamp>_<uuid>`) is supplied by the environment as `sid`; the
`UNIQUE` constraint on `session_id` makes the insert fail on a duplicate. -/
def create_session (m : StateManager) (now : Int) (sid : String)
    (p : CreateParams) : Except String (StateManager × String) :=
  if m.db.processing_state.any (fun r => r.session_id == sid) then
    .error "UNIQUE constraint failed: processing_state.session_id"
  else
    let row : SessionRow :=
      { session_id := sid
        artwork_name := p.artwork_name
        project_date := p.project_date
        master_path := p.master_path
        rd_folder_path := p.rd_folder_path
        output_path := p.output_path
        preset_id := p.preset_id
        encoder_type := p.encoder_type
        scene_threshold := p.scene_threshold
        min_scene_length := p.min_scene_length
        total_operations := p.total_operations
        completed_operations := 0
        current_operation := Option.none
        operation_details := Option.none
        status := "initialized"
        error_message := Option.none
        created_at := now
        updated_at := now
        completed_at := Option.none }
    .ok ({ db := { m.db with
             processing_state := m.db.processing_state ++ [row] }
           session_id := Option.some sid }, sid)

/-- The row effect of the `update_progress` UPDATE statement on one row. -/
def progressRowUpdate (sid : String) (now : Int) (operation : String)
    (details : Option String) (r : SessionRow) : SessionRow :=
  if r.session_id == sid then
    { r with current_operation := Option.some operation
             operation_details := details
             completed_operations := r.completed_operations + 1
             updated_at := now }
  else r

/-- `StateManager.update_progress`: raise without writing when no session is
active, otherwise update the matching row (`current_operation`,
`operation_details`, `completed_operations + 1`); the `AFTER UPDATE` trigger
refreshes `updated_at`.  `details` is the already-serialized JSON text. -/
def update_progress (m : StateManager) (now : Int) (operation : String)
    (details : Option String) : Except String StateManager :=
  if !(sidTruthy m.session_id) then .error "No active session"
  else
    .ok { m with db := { m.db with
      processing_state := m.db.processing_state.map
        (progressRowUpdate (activeSid m) now operation details) } }

/-- The keyword parameters of `log_operation` with source defaults
(`output_files` is stored as JSON text, default `json.dumps([])`). -/
structure LogParams where
  progress : Rat := 0
  input_file : Option String := Option.none
  output_files : String := "[]"
  error_details : Option String := Option.none
deriving DecidableEq, Repr

/-- `COALESCE(MAX(column), 0)` over the values of a column. -/
def coalesceMax : List Int → Int
  | [] => 0
  | x :: xs => xs.foldl max x

/-- The `sequence_number` column of the operation-log rows of one session, in
insertion order. -/
def seqsFor (db : Database) (sid : String) : List Int :=
  (db.operation_log.filter (fun e => e.session_id == sid)).map
    OperationLogRow.sequence_number

/-- `StateManager.log_operation`: raise when no session is active, otherwise
allocate `COALESCE(MAX(sequence_number), 0) + 1` for this session and append
the row.  The read-max and insert form one atomic step (single serialized
connection). -/
def log_operation (m : StateManager) (operation_type operation_name status : String)
    (p : LogParams) : Except String StateManager :=
  if !(sidTruthy m.session_id) then .error "No active session"
  else
    let sid := activeSid m
    let sequence := coalesceMax (seqsFor m.db sid) + 1
    .ok { m with db := { m.db with
      operation_log := m.db.operation_log ++
        [{ session_id := sid
           operation_type := operation_type
           operation_name := operation_name
           sequence_number := sequence
           status := status
           progress := p.progress
           input_file := p.input_file
           output_files := p.output_files
           error_details := p.error_details }] } }

/-- The keyword parameters of `register_file` with source defaults. -/
structure FileParams where
  file_size_bytes : Option Int := Option.none
  resolution : Option String := Option.none
  aspect_ratio : Option String := Option.none
  source_file : Option String := Option.none
deriving DecidableEq, Repr

/-- `StateManager.register_file`. -/
def register_file (m : StateManager) (file_path file_type file_category : String)
    (p : FileParams) : Except String StateManager :=
  if !(sidTruthy m.session_id) then .error "No active session"
  else
    .ok { m with db := { m.db with
      file_registry := m.db.file_registry ++
        [{ session_id := activeSid m
           file_path := file_path
           file_type := file_type
           file_category := file_category
           file_size_bytes := p.file_size_bytes
           resolution := p.resolution
           aspect_ratio := p.aspect_ratio
           source_file := p.source_file }] } }

/-- The row effect of the main `update_status` UPDATE statement on one
row. -/
def statusRowUpdate (sid : String) (now : Int) (status : String)
    (error_message : Option String) (r : SessionRow) : SessionRow :=
  if r.session_id == sid then
    { r with status := status, error_message := error_message,
             updated_at := now }
  else r

/-- The row effect of the `completed_at` stamping UPDATE on one row. -/
def stampRowUpdate (sid : String) (now : Int) (r : SessionRow) : SessionRow :=
  if r.session_id == sid then
    { r with completed_at := Option.some now, updated_at := now }
  else r

/-- `StateManager.update_status`: raise when no session is active, otherwise
set `status`/`error_message`; a second UPDATE stamps `completed_at` when the
new status is `completed`.  The trigger refreshes `updated_at` on both. -/
def update_status (m : StateManager) (now : Int) (status : String)
    (error_message : Option String) : Except String StateManager :=
  if !(sidTruthy m.session_id) then .error "No active session"
  else
    let afterMain := m.db.processing_state.map
      (statusRowUpdate (activeSid m) now status error_message)
    let afterStamp :=
      if status == "completed" then
        afterMain.map (stampRowUpdate (activeSid m) now)
      else afterMain
    .ok { m with db := { m.db with processing_state := afterStamp } }

/-- Seven days in seconds: the `-7 days` modifier of the eligibility query. -/
def sevenDaysSeconds : Int := 7 * 86400

/-- The WHERE clause of `get_resumable_session`:
`status IN ('processing','paused') AND updated_at > datetime('now','-7 days')`. -/
def resumeEligible (now : Int) (r : SessionRow) : Bool :=
  (r.status == "processing" || r.status == "paused") &&
    (now - sevenDaysSeconds < r.updated_at)

/-- `ORDER BY updated_at DESC LIMIT 1`: a row with the greatest `updated_at`. -/
def latestByUpdated : List SessionRow → Option SessionRow
  | [] => Option.none
  | r :: rs =>
      match latestByUpdated rs with
      | Option.none => Option.some r
      | Option.some best =>
          if best.updated_at > r.updated_at then Option.some best
          else Option.some r

/-- `StateManager.get_resumable_session`. -/
def get_resumable_session (m : StateManager) (now : Int) : Option SessionRow :=
  latestByUpdated (m.db.processing_state.filter (resumeEligible now))

/-- `StateManager.load_session`: `ValueError` when the id is unknown,
otherwise set `self.session_id` and return the row. -/
def load_session (m : StateManager) (sid : String) :
    Except String (StateManager × SessionRow) :=
  match m.db.processing_state.find? (fun r => r.session_id == sid) with
  | Option.none => .error ("Session not found: " ++ sid)
  | Option.some row => .ok ({ m with session_id := Option.some sid }, row)

/-! ### Runs of store operations -/

/-- One call into the store, for reasoning about arbitrary operation
sequences. -/
inductive StoreOp where
  | createSession (now : Int) (sid : String) (p : CreateParams)
  | updateProgress (now : Int) (operation : String) (details : Option String)
  | logOperation (operation_type operation_name status : String) (p : LogParams)
  | registerFile (file_path file_type file_category : String) (p : FileParams)
  | updateStatus (now : Int) (status : String) (error_message : Option String)
  | loadSession (sid : String)

/-- Dispatch one store call. -/
def runOp (m : StateManager) : StoreOp → Except String StateManager
  | .createSession now sid p => (create_session m now sid p).map Prod.fst
  | .updateProgress now op d => update_progress m now op d
  | .logOperation t n s p => log_operation m t n s p
  | .registerFile fp ft fc p => register_file m fp ft fc p
  | .updateStatus now s e => update_status m now s e
  | .loadSession sid => (load_session m sid).map Prod.fst

/-- A raised operation leaves the persisted state untouched (every check in
the source precedes the first write of its method). -/
def applyOp (m : StateManager) (op : StoreOp) : StateManager :=
  match runOp m op with
  | .ok m2 => m2
  | .error _ => m

/-- Run a sequence of store calls. -/
def runOps (m : StateManager) (ops : List StoreOp) : StateManager :=
  ops.foldl applyOp m

/-- Is this call an `update_progress`? -/
def StoreOp.isUpdateProgress : StoreOp → Bool
  | .updateProgress _ _ _ => true
  | _ => false

/-- The `processing_state` row of a session (unique by the schema). -/
def sessionRow? (m : StateManager) (sid : String) : Option SessionRow :=
  m.db.processing_state.find? (fun r => r.session_id == sid)

/-- `completed_operations` read off a row list, `0` when no row matches. -/
def completedOfRows (l : List SessionRow) (sid : String) : Int :=
  ((l.find? (fun r => r.session_id == sid)).map
    SessionRow.completed_operations).getD 0

/-- `completed_operations` of a session, `0` when the row is absent. -/
def completedOf (m : StateManager) (sid : String) : Int :=
  completedOfRows m.db.processing_state sid

/-- `total_operations` of a session, `0` when the row is absent. -/
def totalOf (m : StateManager) (sid : String) : Int :=
  ((sessionRow? m sid).map SessionRow.total_operations).getD 0

/-- `status` of a session, `""` when the row is absent. -/
def statusOf (m : StateManager) (sid : String) : String :=
  ((sessionRow? m sid).map SessionRow.status).getD ""

/-- `error_message` of a session, `none` when the row is absent. -/
def errorOf (m : StateManager) (sid : String) : Option String :=
  ((sessionRow? m sid).map SessionRow.error_message).getD Option.none

/-- `current_operation` of a session, `none` when the row is absent. -/
def currentOpOf (m : StateManager) (sid : String) : Option String :=
  ((sessionRow? m sid).map SessionRow.current_operation).getD Option.none

/-- The list `[1, 2, ..., n]` of sequence numbers. -/
def idsUpTo : Nat → List Int
  | 0 => []
  | k + 1 => idsUpTo k ++ [(k : Int) + 1]

/-- The arguments of one `log_operation` call. -/
structure LogCall where
  operation_type : String
  operation_name : String
  status : String
  p : LogParams
deriving DecidableEq, Repr

/-- Perform a sequence of `log_operation` calls, stopping at the first
raise. -/
def runLogCalls (m : StateManager) : List LogCall → Except String StateManager
  | [] => .ok m
  | c :: rest =>
      match log_operation m c.operation_type c.operation_name c.status c.p with
      | .error e => .error e
      | .ok m2 => runLogCalls m2 rest

/-! ## PipelineOrchestrator (`VideoArchiveApp.process_video`, `main_phase2.py`)

The collaborators (validator probe, encoder, detector, thumbnail extraction,
JSON serialization) are external effects; their outcomes for one run are
supplied up front in a `PipelineEnv`.  `VideoProcessor.optimize_master_video`
and `copy_master_to_output` catch every internal exception and report a
boolean, so each is a single `Bool` outcome here; `detect_scenes` re-raises,
so its outcome is an `Except`. -/

/-- The GUI parameters plus the outcome of every external effect of one
`process_video` run. -/
structure PipelineEnv where
  now : Int
  newSessionId : String
  artwork_name : String
  project_date : String
  master_path : String
  output_root : String
  preset : String
  encoder : String
  scene_threshold : Rat
  min_scene_length : Int
  rd_path : Option String
  validateOk : Bool
  validateMessage : String
  info : VideoInfo
  copyMasterOk : Bool
  optimizeMasterOk : Bool
  detectResult : Except String (List Boundary)
  thumbFor : Int → Option String
  serializeScenes : List Scene → String

/-- `SceneDetector.generate_thumbnails`: scenes whose frame extraction
succeeded get a thumbnail path; failures only log a warning. -/
def generate_thumbnails (env : PipelineEnv) (scenes : List Scene) : List Scene :=
  scenes.map (fun s =>
    match env.thumbFor s.scene_number with
    | Option.some p => { s with thumbnail_path := Option.some p }
    | Option.none => s)

/-- The `create_session` argument record built in `process_video`
(`total_operations=9`, the nine phase-2 operations). -/
def pipelineParams (env : PipelineEnv) : CreateParams :=
  { artwork_name := env.artwork_name
    project_date := env.project_date
    master_path := env.master_path
    output_path := env.output_root
    preset_id := env.preset
    total_operations := 9
    rd_folder_path := env.rd_path
    encoder_type := env.encoder
    scene_threshold := env.scene_threshold
    min_scene_length := env.min_scene_length }

/-- The tail of `process_video` after the optimize-master stage: scene
detection (with the single-scene fallback), thumbnails, and the
scene-detection progress write. -/
def processVideoAfterOptimize (env : PipelineEnv) (m4 : StateManager) :
    Except (StateManager × String) (StateManager × Option (List Scene)) :=
  match env.detectResult with
  | .error e => .error (m4, e)
  | .ok scene_list =>
      let scenes := generate_thumbnails env (detectScenesStep env.info scene_list)
      match update_progress m4 env.now "scene_detection"
          (Option.some (env.serializeScenes scenes)) with
      | .error e => .error (m4, e)
      | .ok m5 => .ok (m5, Option.some scenes)

/-- The body of `process_video` up to the `_show_scene_selection` suspend
point.  `.ok (m, none)` is the early validation return, `.ok (m, some scenes)`
reaches the suspend point, `.error (m, msg)` is an exception raised with the
store in state `m`.  An optimize-master failure is only a boolean: the
source logs a warning, skips that update_progress, and continues. -/
def processVideoBody (env : PipelineEnv) (m0 : StateManager) :
    Except (StateManager × String) (StateManager × Option (List Scene)) :=
  if !env.validateOk then .ok (m0, Option.none)
  else
    match create_session m0 env.now env.newSessionId (pipelineParams env) with
    | .error e => .error (m0, e)
    | .ok (m1, _) =>
        match update_status m1 env.now "processing" Option.none with
        | .error e => .error (m1, e)
        | .ok m2 =>
            if env.copyMasterOk then
              match update_progress m2 env.now "copy_master" Option.none with
              | .error e => .error (m2, e)
              | .ok m3 =>
                  if env.optimizeMasterOk then
                    match update_progress m3 env.now "optimize_master"
                        Option.none with
                    | .error e => .error (m3, e)
                    | .ok m4 => processVideoAfterOptimize env m4
                  else processVideoAfterOptimize env m3
            else .error (m2, "Failed to copy master")

/-- `VideoArchiveApp.process_video`: the outer handler marks the session
`failed` with the exception text, but only when a session id is set. -/
def process_video (env : PipelineEnv) (m0 : StateManager) :
    StateManager × Option (List Scene) :=
  match processVideoBody env m0 with
  | .ok r => r
  | .error (m, msg) =>
      if sidTruthy m.session_id then
        match update_status m env.now "failed" (Option.some msg) with
        | .ok m2 => (m2, Option.none)
        | .error _ => (m, Option.none)
      else (m, Option.none)

/-! ## BatchExecutor (`src/processors/batch_processor.py`)

`self.cancelled` is shared mutable state written by `cancel()` from another
thread; it is modelled as an oracle giving the value seen at the k-th read,
with the read counter threaded through in program order.  The completion
order of `as_completed` over the parallel image futures is likewise supplied
by the environment.  `TemplateCompositor.process_file` catches every internal
exception and returns `(success, payload)`, marking the `MediaFile` as it
does so; its outcome is one `Bool` per file. -/

/-- The `MediaFile` model fields the batch executor reads
(`models/media_file.py`). -/
structure MediaFile where
  path : String
  filename : String
  sequence : Int
  type : String
  width : Int
  height : Int
  size_bytes : Int
  template : String
  enabled : Bool := true
deriving DecidableEq, Repr

/-- External outcomes of one `process_all` run. -/
structure BatchEnv where
  flag : Nat → Bool
  outcome : MediaFile → Bool
  completionOrder : List MediaFile → List MediaFile

/-- Counters of one phase: `(processed, failed, skipped)`. -/
abbrev BatchCounts := Int × Int × Int

/-- The `as_completed` loop of `_process_images_parallel`: per completed
future, first check the flag (on cancellation set
`skipped := len(images) - processed - failed` and break), then count the
result. -/
def consumeCompleted (env : BatchEnv) (nImages : Int) :
    List MediaFile → Int → Int → Int → Nat → BatchCounts × Nat
  | [], processed, failed, skipped, k => ((processed, failed, skipped), k)
  | f :: rest, processed, failed, skipped, k =>
      if env.flag k then
        ((processed, failed, nImages - processed - failed), k + 1)
      else if env.outcome f then
        consumeCompleted env nImages rest (processed + 1) failed skipped (k + 1)
      else
        consumeCompleted env nImages rest processed (failed + 1) skipped (k + 1)

/-- `_process_images_parallel`: every image is submitted to the worker pool
before the first flag check, so all of them are dispatched; results are
consumed in completion order. -/
def process_images_parallel (env : BatchEnv) (images : List MediaFile)
    (k : Nat) : (BatchCounts × Nat) × List MediaFile :=
  (consumeCompleted env (images.length : Int) (env.completionOrder images)
    0 0 0 k, images)

/-- The shared shape of the two sequential loops: per item, check the flag
(on cancellation set `skipped := n - idx` and break), otherwise dispatch the
item and count the result. -/
def seqLoop (env : BatchEnv) (n : Int) :
    List MediaFile → Int → Int → Int → Int → Nat → List MediaFile →
    (BatchCounts × Nat) × List MediaFile
  | [], _idx, processed, failed, skipped, k, dispatched =>
      (((processed, failed, skipped), k), dispatched)
  | f :: rest, idx, processed, failed, skipped, k, dispatched =>
      if env.flag k then
        (((processed, failed, n - idx), k + 1), dispatched)
      else if env.outcome f then
        seqLoop env n rest (idx + 1) (processed + 1) failed skipped (k + 1)
          (dispatched ++ [f])
      else
        seqLoop env n rest (idx + 1) processed (failed + 1) skipped (k + 1)
          (dispatched ++ [f])

/-- `_process_images_sequential`. -/
def process_images_sequential (env : BatchEnv) (images : List MediaFile)
    (k : Nat) : (BatchCounts × Nat) × List MediaFile :=
  seqLoop env (images.length : Int) images 0 0 0 0 k []

/-- `_process_videos_sequential` (identical control flow; the per-video
progress callback has no effect on state). -/
def process_videos_sequential (env : BatchEnv) (videos : List MediaFile)
    (k : Nat) : (BatchCounts × Nat) × List MediaFile :=
  seqLoop env (videos.length : Int) videos 0 0 0 0 k []

/-- The summary dict `process_all` returns.  The early no-files return
carries `success/error/processed/failed/skipped` only; the defaults stand in
for its absent keys. -/
structure BatchSummary where
  success : Bool
  error : Option String := Option.none
  processed : Int
  failed : Int
  skipped : Int
  total : Int := 0
  cancelled : Bool := false
  output_directory : String := ""
  project_name : String := ""
deriving DecidableEq, Repr

/-- Externally visible side effects of one `process_all` run: whether
`os.makedirs(output_dir)` ran, whether `_write_processing_log` ran, and the
files handed to the compositor, in dispatch order. -/
structure BatchEffects where
  dirCreated : Bool
  logWritten : Bool
  dispatched : List MediaFile
deriving DecidableEq, Repr

/-- `BatchProcessor.process_all`.  Flag reads in program order: one per
parallel-loop iteration, one per sequential-loop iteration, one in
`if videos and not self.cancelled` (only when videos exist), then one for the
summary `success` field and one for its `cancelled` field. -/
def process_all (env : BatchEnv) (media_files : List MediaFile)
    (project_name : String) (output_dir : String)
    (parallel_images : Bool) (max_workers : Int) :
    BatchSummary × BatchEffects :=
  let files_to_process := media_files.filter (fun f => f.enabled)
  if files_to_process.isEmpty then
    ({ success := false
       error := Option.some "No files selected for processing"
       processed := 0, failed := 0, skipped := 0 },
     { dirCreated := false, logWritten := false, dispatched := [] })
  else
    let images := files_to_process.filter (fun f => f.type == "image")
    let videos := files_to_process.filter (fun f => f.type == "video")
    let total_files : Int := (files_to_process.length : Int)
    let imgStep : (BatchCounts × Nat) × List MediaFile :=
      if images.isEmpty then (((0, 0, 0), 0), [])
      else if parallel_images && max_workers > 1 then
        process_images_parallel env images 0
      else
        process_images_sequential env images 0
    let imgCounts := imgStep.1.1
    let k1 := imgStep.1.2
    let vidStep : (BatchCounts × Nat) × List MediaFile :=
      if videos.isEmpty then (((0, 0, 0), k1), [])
      else if env.flag k1 then (((0, 0, 0), k1 + 1), [])
      else process_videos_sequential env videos (k1 + 1)
    let vidCounts := vidStep.1.1
    let k2 := vidStep.1.2
    let processed_count := imgCounts.1 + vidCounts.1
    let failed_count := imgCounts.2.1 + vidCounts.2.1
    let skipped_count := imgCounts.2.2 + vidCounts.2.2
    ({ success := !env.flag k2 && failed_count == 0
       processed := processed_count
       failed := failed_count
       skipped := skipped_count
       total := total_files
       cancelled := env.flag (k2 + 1)
       output_directory := output_dir
       project_name := project_name },
     { dirCreated := true, logWritten := true,
       dispatched := imgStep.2 ++ vidStep.2 })

/-- The per-file status line of `_write_processing_log` for an enabled file:
`SUCCESS` when `mark_processed` ran, `FAILED` when `mark_error` ran, and
`SKIPPED` when the compositor never touched the file. -/
def fileLogStatus (env : BatchEnv) (dispatched : List MediaFile)
    (f : MediaFile) : String :=
  if dispatched.contains f then
    if env.outcome f then "SUCCESS" else "FAILED"
  else "SKIPPED"

/-! ## Concrete run fixtures for counterexamples and witnesses -/

/-- One sample detector boundary: a ten-second scene at 25 fps. -/
def sampleBoundary : Boundary :=
  { startFrames := 0, endFrames := 250, startSeconds := 0, endSeconds := 10 }

/-- A concrete `process_video` environment: validation passes, detection
reports one boundary, and the two copy/optimize booleans are selectable. -/
def sampleEnv (copyOk optimizeOk : Bool) : PipelineEnv :=
  { now := 100
    newSessionId := "vat_20250101_000000_abcd1234"
    artwork_name := "art"
    project_date := "25-01-01"
    master_path := "/in/master.mov"
    output_root := "/out"
    preset := "Webflow Standard"
    encoder := "x264"
    scene_threshold := 30
    min_scene_length := 15
    rd_path := Option.none
    validateOk := true
    validateMessage := "Valid ProRes video"
    info := { width := 1920, height := 1080, fps := 25, duration := 10 }
    copyMasterOk := copyOk
    optimizeMasterOk := optimizeOk
    detectResult := .ok [sampleBoundary]
    thumbFor := fun _ => Option.none
    serializeScenes := fun _ => "scenes-json" }

/-- `create_session` keyword arguments with `total_operations = 0`. -/
def zeroTotalParams : CreateParams :=
  { artwork_name := "a"
    project_date := "25-01-01"
    master_path := "/in/m.mov"
    output_path := "/out"
    preset_id := "p"
    total_operations := 0 }

/-- Create a session with zero total operations, then report one completed
operation. -/
def overflowOps : List StoreOp :=
  [.createSession 0 "s" zeroTotalParams,
   .updateProgress 1 "copy_master" Option.none]

/-- A manager whose `session_id` points at session `s` over an empty log. -/
def sessionSManager : StateManager := { session_id := Option.some "s" }

/-- Three concrete `log_operation` calls for one session. -/
def threeLogCalls : List LogCall :=
  [{ operation_type := "video", operation_name := "copy_master",
     status := "completed", p := {} },
   { operation_type := "video", operation_name := "optimize_master",
     status := "completed", p := {} },
   { operation_type := "scene", operation_name := "scene_detection",
     status := "completed", p := {} }]

/-- A recent `processing` session row. -/
def rowProcessing : SessionRow :=
  { session_id := "sa"
    artwork_name := "a"
    project_date := "25-01-01"
    master_path := "/in/m.mov"
    rd_folder_path := Option.none
    output_path := "/out"
    preset_id := "p"
    encoder_type := "x264"
    scene_threshold := 30
    min_scene_length := 15
    total_operations := 9
    completed_operations := 2
    current_operation := Option.some "optimize_master"
    operation_details := Option.none
    status := "processing"
    error_message := Option.none
    created_at := 10
    updated_at := 90
    completed_at := Option.none }

/-- A more recently updated but `completed` (terminal) session row. -/
def rowCompleted : SessionRow :=
  { rowProcessing with
      session_id := "sb"
      status := "completed"
      completed_operations := 9
      updated_at := 95
      completed_at := Option.some 95 }

/-- A store holding one resumable and one terminal session. -/
def twoSessionManager : StateManager :=
  { db := { processing_state := [rowProcessing, rowCompleted] } }

/-- Two detected scenes, numbered 1 and 2. -/
def sceneOne : Scene :=
  { scene_number := 1, start_frame := 0, end_frame := 125,
    start_time := 0, end_time := 5, duration := 5 }

/-- See `sceneOne`. -/
def sceneTwo : Scene :=
  { scene_number := 2, start_frame := 125, end_frame := 250,
    start_time := 5, end_time := 10, duration := 5,
    thumbnail_path := Option.some "/out/thumb_02.jpg" }

/-- An enabled image item for the batch executor. -/
def imageFileA : MediaFile :=
  { path := "/in/a.png", filename := "a.png", sequence := 1, type := "image",
    width := 1080, height := 1080, size_bytes := 1000, template := "1-1-small" }

/-- An enabled video item for the batch executor. -/
def videoFileA : MediaFile :=
  { path := "/in/b.mp4", filename := "b.mp4", sequence := 2, type := "video",
    width := 1920, height := 1080, size_bytes := 5000, template := "16-9" }

/-- A disabled item. -/
def disabledFileA : MediaFile :=
  { imageFileA with filename := "c.png", path := "/in/c.png", enabled := false }

/-- A batch run during which `cancel()` was called before the first flag
read; every compositor call would succeed. -/
def cancelledBatchEnv : BatchEnv :=
  { flag := fun _ => true, outcome := fun _ => true,
    completionOrder := fun l => l }

/-- A batch run with no cancellation and all-successful outcomes. -/
def idleBatchEnv : BatchEnv :=
  { flag := fun _ => false, outcome := fun _ => true,
    completionOrder := fun l => l }

/-! ## Theorems -/

/-- Importing one valid scene dictionary succeeds and exporting the result
reproduces the dictionary exactly. -/
theorem importExport_of_valid (d : SceneDict) (h : validSceneDict d = true) :
    ∃ s : Scene, importSceneDict d = Option.some s ∧ exportSceneDict s = d := by
  unfold validSceneDict at h
  split at h
  next n sf ef st et du p =>
    exact ⟨⟨n, sf, ef, st, et, du, Option.some p⟩, rfl, rfl⟩
  next n sf ef st et du =>
    exact ⟨⟨n, sf, ef, st, et, du, Option.none⟩, rfl, rfl⟩
  next => simp at h

/-- C7: for every valid scene list in dictionary form,
`export_scene_data (import_scene_data x) = x`: the import succeeds and the
re-export reproduces the same fields in the same order. -/
theorem scene_data_round_trip (ds : List SceneDict)
    (h : ∀ d ∈ ds, validSceneDict d = true) :
    ∃ scenes, import_scene_data ds = Option.some scenes ∧
      export_scene_data scenes = ds := by
  induction ds with
  | nil => exact ⟨[], rfl, rfl⟩
  | cons d rest ih =>
      obtain ⟨s, hs, hexp⟩ := importExport_of_valid d (h d (by simp))
      obtain ⟨tail, htail, htexp⟩ := ih (fun x hx => h x (by simp [hx]))
      refine ⟨s :: tail, ?_, ?_⟩
      · simp [import_scene_data, hs, htail]
      · simp only [export_scene_data, List.map_cons]
        simp only [export_scene_data] at htexp
        rw [hexp, htexp]

/-- Witness for C7 at a concrete two-scene list. -/
theorem scene_data_round_trip_witness :
    ∃ scenes,
      import_scene_data (export_scene_data [sceneOne, sceneTwo]) =
        Option.some scenes ∧
      export_scene_data scenes = export_scene_data [sceneOne, sceneTwo] :=
  scene_data_round_trip (export_scene_data [sceneOne, sceneTwo]) (by decide)

/-- C4: when scene detection reports zero boundaries, the detect-scenes step
of the pipeline yields exactly one scene, numbered 1, spanning the whole
media duration. -/
theorem detect_zero_boundaries_single_scene (info : VideoInfo) :
    detectScenesStep info [] = [fullVideoScene info] ∧
    (detectScenesStep info []).length = 1 ∧
    (fullVideoScene info).scene_number = 1 ∧
    (fullVideoScene info).start_time = 0 ∧
    (fullVideoScene info).end_time = info.duration ∧
    (fullVideoScene info).duration = info.duration := by
  exact ⟨rfl, rfl, rfl, rfl, rfl, rfl⟩

/-- C8: a selection of fewer than two scenes is rejected (the group list is
unchanged), and every group in the resulting list is either pre-existing or
has at least two pairwise distinct scene numbers. -/
theorem add_to_group_spec (scenes : List Scene) (checked : Int → Bool)
    (groups : List (List Int))
    (hnodup : (scenes.map Scene.scene_number).Nodup) :
    ((selectedNumbers scenes checked).length < 2 →
        add_to_group scenes checked groups = groups) ∧
    (∀ g ∈ add_to_group scenes checked groups,
        g ∈ groups ∨ (2 ≤ g.length ∧ g.Nodup)) := by
  constructor
  · intro h
    simp [add_to_group, h]
  · intro g hg
    by_cases h : (selectedNumbers scenes checked).length < 2
    · simp only [add_to_group] at hg
      rw [if_pos h] at hg
      exact Or.inl hg
    · simp only [add_to_group] at hg
      rw [if_neg h] at hg
      rcases List.mem_append.mp hg with hg | hg
      · exact Or.inl hg
      · rw [List.mem_singleton] at hg
        subst hg
        refine Or.inr ⟨by omega, ?_⟩
        have hsub : (selectedNumbers scenes checked).Sublist
            (scenes.map Scene.scene_number) :=
          (List.filter_sublist scenes).map Scene.scene_number
        exact hnodup.sublist hsub

/-- Witness for C8: a single-scene selection is rejected and an empty group
list stays empty. -/
theorem add_to_group_spec_witness :
    add_to_group [sceneOne, sceneTwo] (fun n => n == 1)
      ([] : List (List Int)) = [] :=
  (add_to_group_spec [sceneOne, sceneTwo] (fun n => n == 1) [] (by decide)).1
    (by decide)

/-! ### Operation-log sequence numbers (C3) -/

/-- Appending a matching row extends the per-session sequence column. -/
theorem seqsFor_append_one (db : Database) (sid : String) (e : OperationLogRow)
    (h : e.session_id = sid) :
    seqsFor { db with operation_log := db.operation_log ++ [e] } sid
      = seqsFor db sid ++ [e.sequence_number] := by
  simp [seqsFor, List.filter_append, h]

/-- `COALESCE(MAX(..), 0)` of a column extended with a dominating
nonnegative value. -/
theorem coalesceMax_concat (l : List Int) (a : Int)
    (hle : coalesceMax l ≤ a) : coalesceMax (l ++ [a]) = a := by
  cases l with
  | nil => rfl
  | cons x xs =>
      simp only [coalesceMax, List.cons_append, List.foldl_append,
        List.foldl_cons, List.foldl_nil] at hle ⊢
      exact max_eq_right hle

/-- The maximum of `[1, ..., k]` is `k`. -/
theorem coalesceMax_idsUpTo (k : Nat) : coalesceMax (idsUpTo k) = (k : Int) := by
  induction k with
  | zero => rfl
  | succ k ih =>
      rw [idsUpTo, coalesceMax_concat _ _ (by rw [ih]; omega)]
      push_cast
      ring

/-- Membership in `[1, ..., k]`. -/
theorem mem_idsUpTo (k : Nat) (j : Int) :
    j ∈ idsUpTo k ↔ 1 ≤ j ∧ j ≤ (k : Int) := by
  induction k with
  | zero =>
      simp only [idsUpTo, List.not_mem_nil, false_iff]
      omega
  | succ k ih =>
      simp only [idsUpTo, List.mem_append, List.mem_singleton, ih]
      omega

/-- `[1, ..., k]` has no duplicates. -/
theorem nodup_idsUpTo (k : Nat) : (idsUpTo k).Nodup := by
  induction k with
  | zero => exact List.nodup_nil
  | succ k ih =>
      rw [idsUpTo]
      refine List.Nodup.append ih (List.nodup_singleton _) ?_
      intro x hx hy
      rw [mem_idsUpTo] at hx
      rw [List.mem_singleton] at hy
      omega

/-- One successful `log_operation` call appends exactly the sequence number
`COALESCE(MAX(existing), 0) + 1` for the active session and leaves the
session table untouched. -/
theorem log_operation_step (m : StateManager) (sid t n s : String)
    (p : LogParams) (hsid : m.session_id = Option.some sid) (hne : sid ≠ "") :
    ∃ m2, log_operation m t n s p = .ok m2 ∧
      m2.session_id = Option.some sid ∧
      m2.db.processing_state = m.db.processing_state ∧
      seqsFor m2.db sid = seqsFor m.db sid ++
        [coalesceMax (seqsFor m.db sid) + 1] := by
  have ht : sidTruthy m.session_id = true := by
    rw [hsid]; simp [sidTruthy, hne]
  have has : activeSid m = sid := by simp [activeSid, hsid]
  unfold log_operation
  rw [if_neg (by simp [ht])]
  refine ⟨_, rfl, hsid, rfl, ?_⟩
  rw [has]
  exact seqsFor_append_one m.db sid _ rfl

/-- Running a list of `log_operation` calls with an active session extends a
sequence column of shape `[1..k]` to `[1..k + number of calls]`. -/
theorem runLogCalls_seq (calls : List LogCall) :
    ∀ (m : StateManager) (sid : String) (k : Nat),
      m.session_id = Option.some sid → sid ≠ "" →
      seqsFor m.db sid = idsUpTo k →
      ∃ m2, runLogCalls m calls = .ok m2 ∧
        m2.session_id = Option.some sid ∧
        seqsFor m2.db sid = idsUpTo (k + calls.length) := by
  induction calls with
  | nil =>
      intro m sid k hsid _hne hk
      exact ⟨m, rfl, hsid, by simpa using hk⟩
  | cons c rest ih =>
      intro m sid k hsid hne hk
      obtain ⟨m1, hrun, hs1, _hps, hseq⟩ :=
        log_operation_step m sid c.operation_type c.operation_name c.status
          c.p hsid hne
      rw [hk, coalesceMax_idsUpTo] at hseq
      obtain ⟨m2, hrun2, hs2, hseq2⟩ := ih m1 sid (k + 1) hs1 hne hseq
      refine ⟨m2, ?_, hs2, ?_⟩
      · simp only [runLogCalls, hrun]
        exact hrun2
      · rw [hseq2]
        congr 1
        simp only [List.length_cons]
        omega

/-- C3: each `log_operation` call allocates the per-session sequence number
`max(existing) + 1` (1 on an empty log), so after N calls from an initially
empty log the recorded numbers are exactly `1..N`: no duplicate, no gap, and
no two calls receive the same number. -/
theorem log_operation_sequence_numbers (m : StateManager) (sid : String)
    (calls : List LogCall) (hsid : m.session_id = Option.some sid)
    (hne : sid ≠ "") (h0 : seqsFor m.db sid = []) :
    (∀ (m1 m2 : StateManager) (t n s : String) (p : LogParams),
        m1.session_id = Option.some sid →
        log_operation m1 t n s p = .ok m2 →
        seqsFor m2.db sid = seqsFor m1.db sid ++
          [coalesceMax (seqsFor m1.db sid) + 1]) ∧
    ∃ m2, runLogCalls m calls = .ok m2 ∧
      seqsFor m2.db sid = idsUpTo calls.length ∧
      (seqsFor m2.db sid).Nodup ∧
      ∀ j : Int, j ∈ seqsFor m2.db sid ↔ 1 ≤ j ∧ j ≤ (calls.length : Int) := by
  constructor
  · intro m1 m2 t n s p hs1 hok
    obtain ⟨m2', hok', _, _, hseq⟩ := log_operation_step m1 sid t n s p hs1 hne
    rw [hok] at hok'
    injection hok' with h
    rw [h]
    exact hseq
  · obtain ⟨m2, hrun, _hs2, hseq⟩ := runLogCalls_seq calls m sid 0 hsid hne h0
    rw [Nat.zero_add] at hseq
    refine ⟨m2, hrun, hseq, ?_, ?_⟩
    · rw [hseq]; exact nodup_idsUpTo calls.length
    · intro j; rw [hseq]; exact mem_idsUpTo calls.length j

/-- Witness for C3: three concrete calls on an empty log yield exactly the
sequence numbers 1, 2, 3. -/
theorem log_operation_sequence_numbers_witness :
    ∃ m2, runLogCalls sessionSManager threeLogCalls = .ok m2 ∧
      seqsFor m2.db "s" = idsUpTo 3 ∧
      (seqsFor m2.db "s").Nodup ∧
      ∀ j : Int, j ∈ seqsFor m2.db "s" ↔
        1 ≤ j ∧ j ≤ ((threeLogCalls.length : Nat) : Int) :=
  (log_operation_sequence_numbers sessionSManager "s" threeLogCalls rfl
    (by decide) rfl).2

/-! ### completed_operations (C5) -/

/-- `find?` commutes with a row update that preserves the predicate. -/
theorem find?_map_preserve {α : Type} (f : α → α) (p : α → Bool) (l : List α)
    (h : ∀ a, p (f a) = p a) :
    (l.map f).find? p = (l.find? p).map f := by
  induction l with
  | nil => rfl
  | cons a l ih =>
      cases hpa : p a with
      | true => simp [List.find?_cons_of_pos, hpa, h a]
      | false => simp [List.find?_cons_of_neg, hpa, h a, ih]

/-- `completed_operations` as seen through a row update that keeps
`session_id` intact. -/
theorem completedOfRows_map (l : List SessionRow) (f : SessionRow → SessionRow)
    (sid : String) (hid : ∀ r, (f r).session_id = r.session_id) :
    completedOfRows (l.map f) sid
      = match l.find? (fun r => r.session_id == sid) with
        | Option.none => 0
        | Option.some r => (f r).completed_operations := by
  have hpres : ∀ r : SessionRow,
      ((f r).session_id == sid) = (r.session_id == sid) := by
    intro r; rw [hid r]
  unfold completedOfRows
  rw [find?_map_preserve f _ _ hpres]
  cases l.find? (fun r => r.session_id == sid) <;> rfl

/-- A successful `create_session` inserts the new row with
`completed_operations = 0` and status `initialized`. -/
theorem create_session_completed_zero (m : StateManager) (now : Int)
    (sid : String) (p : CreateParams) (m1 : StateManager) (r : String)
    (h : create_session m now sid p = .ok (m1, r)) :
    completedOf m1 sid = 0 ∧ statusOf m1 sid = "initialized" := by
  unfold create_session at h
  by_cases hdup :
      m.db.processing_state.any (fun x => x.session_id == sid) = true
  · rw [if_pos hdup] at h
    simp at h
  · rw [if_neg hdup] at h
    rw [Except.ok.injEq, Prod.mk.injEq] at h
    obtain ⟨hm, -⟩ := h
    rw [← hm]
    have hall : ∀ x ∈ m.db.processing_state, ¬ x.session_id = sid := by
      simpa using hdup
    have hnone :
        m.db.processing_state.find? (fun x => x.session_id == sid) =
          Option.none := by
      rw [List.find?_eq_none]
      intro a ha
      simpa using hall a ha
    simp [completedOf, completedOfRows, statusOf, sessionRow?,
      List.find?_append, hnone]

/-- `progressRowUpdate` never changes `session_id`. -/
theorem progressRowUpdate_session_id (sid : String) (now : Int)
    (opn : String) (d : Option String) (r : SessionRow) :
    (progressRowUpdate sid now opn d r).session_id = r.session_id := by
  unfold progressRowUpdate
  by_cases hr : (r.session_id == sid) = true <;> simp [hr]

/-- The effect of `progressRowUpdate` on `completed_operations`. -/
theorem progressRowUpdate_completed (sid : String) (now : Int)
    (opn : String) (d : Option String) (r : SessionRow) :
    (progressRowUpdate sid now opn d r).completed_operations =
      if (r.session_id == sid) = true then r.completed_operations + 1
      else r.completed_operations := by
  unfold progressRowUpdate
  by_cases hr : (r.session_id == sid) = true <;> simp [hr]

/-- `statusRowUpdate` changes neither `session_id` nor
`completed_operations`. -/
theorem statusRowUpdate_preserves (sid : String) (now : Int) (st : String)
    (e : Option String) (r : SessionRow) :
    (statusRowUpdate sid now st e r).session_id = r.session_id ∧
    (statusRowUpdate sid now st e r).completed_operations =
      r.completed_operations := by
  unfold statusRowUpdate
  by_cases hr : (r.session_id == sid) = true <;> simp [hr]

/-- `stampRowUpdate` changes neither `session_id` nor
`completed_operations`. -/
theorem stampRowUpdate_preserves (sid : String) (now : Int) (r : SessionRow) :
    (stampRowUpdate sid now r).session_id = r.session_id ∧
    (stampRowUpdate sid now r).completed_operations =
      r.completed_operations := by
  unfold stampRowUpdate
  by_cases hr : (r.session_id == sid) = true <;> simp [hr]

/-- Any single store call leaves `completed_operations` unchanged or, only
for `update_progress`, increments it by exactly one. -/
theorem completedOf_applyOp (m : StateManager) (op : StoreOp) (sid : String) :
    completedOf (applyOp m op) sid = completedOf m sid ∨
      (op.isUpdateProgress = true ∧
        completedOf (applyOp m op) sid = completedOf m sid + 1) := by
  cases op with
  | createSession now s p =>
      left
      unfold applyOp runOp create_session
      dsimp only
      by_cases hdup :
          m.db.processing_state.any (fun x => x.session_id == s) = true
      · rw [if_pos hdup]
        rfl
      · rw [if_neg hdup]
        dsimp only [Except.map]
        show completedOfRows (m.db.processing_state ++ [_]) sid
          = completedOf m sid
        unfold completedOf completedOfRows
        rw [List.find?_append]
        cases hfr : m.db.processing_state.find? (fun x => x.session_id == sid)
          with
        | some r => rfl
        | none =>
            simp only [Option.none_or]
            cases hmatch : (s == sid) <;> simp [List.find?, hmatch]
  | updateProgress now opn d =>
      by_cases ht : sidTruthy m.session_id = true
      · have happly : applyOp m (.updateProgress now opn d) =
            { m with db := { m.db with
                processing_state := m.db.processing_state.map
                    (progressRowUpdate (activeSid m) now opn d) } } := by
          unfold applyOp runOp update_progress
          dsimp only
          rw [if_neg (by simp [ht])]
        rw [happly]
        have hcomp : completedOf
            { m with db := { m.db with
                processing_state := m.db.processing_state.map
                    (progressRowUpdate (activeSid m) now opn d) } } sid
            = match m.db.processing_state.find?
                (fun r => r.session_id == sid) with
              | Option.none => 0
              | Option.some r =>
                  (progressRowUpdate (activeSid m) now opn d
                    r).completed_operations :=
          completedOfRows_map m.db.processing_state _ sid
            (progressRowUpdate_session_id (activeSid m) now opn d)
        rw [hcomp]
        cases hfr : m.db.processing_state.find? (fun r => r.session_id == sid)
          with
        | none => left; simp [completedOf, completedOfRows, hfr]
        | some r =>
            dsimp only
            rw [progressRowUpdate_completed]
            by_cases hr : (r.session_id == activeSid m) = true
            · right
              refine ⟨rfl, ?_⟩
              simp [completedOf, completedOfRows, hfr, hr]
            · left
              simp [completedOf, completedOfRows, hfr, hr]
      · left
        unfold applyOp runOp update_progress
        dsimp only
        rw [if_pos (by simpa using ht)]
  | logOperation t n s p =>
      left
      unfold applyOp runOp log_operation
      dsimp only
      by_cases ht : sidTruthy m.session_id = true
      · rw [if_neg (by simp [ht])]
        rfl
      · rw [if_pos (by simpa using ht)]
  | registerFile fp ft fc p =>
      left
      unfold applyOp runOp register_file
      dsimp only
      by_cases ht : sidTruthy m.session_id = true
      · rw [if_neg (by simp [ht])]
        rfl
      · rw [if_pos (by simpa using ht)]
  | updateStatus now s e =>
      left
      by_cases ht : sidTruthy m.session_id = true
      · by_cases hc : (s == "completed") = true
        · have happly : applyOp m (.updateStatus now s e) =
              { m with db := { m.db with
                  processing_state := (m.db.processing_state.map
                      (statusRowUpdate (activeSid m) now s e)).map
                      (stampRowUpdate (activeSid m) now) } } := by
            unfold applyOp runOp update_status
            dsimp only
            rw [if_neg (by simp [ht]), if_pos hc]
          rw [happly, List.map_map]
          have hcomp : completedOf
              { m with db := { m.db with
                  processing_state := m.db.processing_state.map
                      (stampRowUpdate (activeSid m) now ∘
                        statusRowUpdate (activeSid m) now s e) } } sid
              = match m.db.processing_state.find?
                  (fun r => r.session_id == sid) with
                | Option.none => 0
                | Option.some r =>
                    ((stampRowUpdate (activeSid m) now ∘
                      statusRowUpdate (activeSid m) now s e)
                        r).completed_operations :=
            completedOfRows_map m.db.processing_state _ sid (by
              intro r
              simp only [Function.comp_apply]
              rw [(stampRowUpdate_preserves (activeSid m) now _).1,
                (statusRowUpdate_preserves (activeSid m) now s e r).1])
          rw [hcomp]
          cases hfr :
              m.db.processing_state.find? (fun r => r.session_id == sid) with
          | none => simp [completedOf, completedOfRows, hfr]
          | some r =>
              dsimp only [Function.comp_apply]
              rw [(stampRowUpdate_preserves (activeSid m) now _).2,
                (statusRowUpdate_preserves (activeSid m) now s e r).2]
              simp [completedOf, completedOfRows, hfr]
        · have happly : applyOp m (.updateStatus now s e) =
              { m with db := { m.db with
                  processing_state := m.db.processing_state.map
                      (statusRowUpdate (activeSid m) now s e) } } := by
            unfold applyOp runOp update_status
            dsimp only
            rw [if_neg (by simp [ht]), if_neg hc]
          rw [happly]
          have hcomp : completedOf
              { m with db := { m.db with
                  processing_state := m.db.processing_state.map
                      (statusRowUpdate (activeSid m) now s e) } } sid
              = match m.db.processing_state.find?
                  (fun r => r.session_id == sid) with
                | Option.none => 0
                | Option.some r =>
                    (statusRowUpdate (activeSid m) now s e
                      r).completed_operations :=
            completedOfRows_map m.db.processing_state _ sid
              (fun r => (statusRowUpdate_preserves (activeSid m) now s e r).1)
          rw [hcomp]
          cases hfr :
              m.db.processing_state.find? (fun r => r.session_id == sid) with
          | none => simp [completedOf, completedOfRows, hfr]
          | some r =>
              dsimp only
              rw [(statusRowUpdate_preserves (activeSid m) now s e r).2]
              simp [completedOf, completedOfRows, hfr]
      · unfold applyOp runOp update_status
        dsimp only
        rw [if_pos (by simpa using ht)]
  | loadSession s =>
      left
      unfold applyOp runOp load_session
      dsimp only
      cases hfr : m.db.processing_state.find? (fun r => r.session_id == s) with
      | none => rfl
      | some row => rfl

/-- `completed_operations` never decreases along a run of store calls. -/
theorem completedOf_runOps_mono (ops : List StoreOp) :
    ∀ (m : StateManager) (sid : String),
      completedOf m sid ≤ completedOf (runOps m ops) sid := by
  induction ops with
  | nil => intro m sid; exact le_refl _
  | cons op rest ih =>
      intro m sid
      have h := completedOf_applyOp m op sid
      have h2 := ih (applyOp m op) sid
      simp only [runOps, List.foldl_cons] at h2 ⊢
      rcases h with h | ⟨-, h⟩ <;> omega

/-- `completed_operations` grows by at most the number of `update_progress`
calls in the run. -/
theorem completedOf_runOps_le (ops : List StoreOp) :
    ∀ (m : StateManager) (sid : String),
      completedOf (runOps m ops) sid ≤
        completedOf m sid + (ops.countP StoreOp.isUpdateProgress : Int) := by
  induction ops with
  | nil => intro m sid; simp [runOps]
  | cons op rest ih =>
      intro m sid
      have h := completedOf_applyOp m op sid
      have h2 := ih (applyOp m op) sid
      have hstep : completedOf (applyOp m op) sid ≤
          completedOf m sid +
            (if StoreOp.isUpdateProgress op then (1 : Int) else 0) := by
        rcases h with h | ⟨hup, h⟩
        · rw [h]; split <;> omega
        · rw [h, hup]; simp
      simp only [runOps, List.foldl_cons] at h2 ⊢
      rw [List.countP_cons]
      push_cast
      linarith [h2, hstep]

/-- C5 amended: `completed_operations` starts at 0 on session creation, is
changed only by `update_progress` and then by exactly +1, and is
monotonically non-decreasing; but the store does not enforce the
`total_operations` bound — the value is only bounded by the number of
`update_progress` calls in the run. -/
theorem completed_operations_laws (m : StateManager) (ops : List StoreOp)
    (sid : String) :
    (∀ (now : Int) (p : CreateParams) (m1 : StateManager) (r : String),
        create_session m now sid p = .ok (m1, r) →
        completedOf m1 sid = 0 ∧ statusOf m1 sid = "initialized") ∧
    (∀ op : StoreOp, completedOf (applyOp m op) sid = completedOf m sid ∨
        (op.isUpdateProgress = true ∧
          completedOf (applyOp m op) sid = completedOf m sid + 1)) ∧
    completedOf m sid ≤ completedOf (runOps m ops) sid ∧
    completedOf (runOps m ops) sid ≤
      completedOf m sid + (ops.countP StoreOp.isUpdateProgress : Int) :=
  ⟨fun now p m1 r h => create_session_completed_zero m now sid p m1 r h,
   fun op => completedOf_applyOp m op sid,
   completedOf_runOps_mono ops m sid,
   completedOf_runOps_le ops m sid⟩

/-- Witness for C5 at a concrete two-call run. -/
theorem completed_operations_laws_witness :
    completedOf emptyManager "s" ≤
      completedOf (runOps emptyManager overflowOps) "s" ∧
    completedOf (runOps emptyManager overflowOps) "s" ≤
      completedOf emptyManager "s" +
        (overflowOps.countP StoreOp.isUpdateProgress : Int) :=
  ⟨(completed_operations_laws emptyManager overflowOps "s").2.2.1,
   (completed_operations_laws emptyManager overflowOps "s").2.2.2⟩

/-- C5 counterexample: creating a session with `total_operations = 0` and
then calling `update_progress` once drives `completed_operations` to 1,
strictly above `total_operations` — the store enforces no bound. -/
theorem completed_exceeds_total_cex :
    completedOf (runOps emptyManager overflowOps) "s" = 1 ∧
    totalOf (runOps emptyManager overflowOps) "s" = 0 ∧
    ¬ completedOf (runOps emptyManager overflowOps) "s" ≤
        totalOf (runOps emptyManager overflowOps) "s" := by
  decide

/-! ### Resume eligibility (C6) and active-session guards (C10) -/

/-- `ORDER BY updated_at DESC LIMIT 1` returns a row exactly when the input
is nonempty. -/
theorem latestByUpdated_eq_none (l : List SessionRow) :
    latestByUpdated l = Option.none ↔ l = [] := by
  cases l with
  | nil => simp [latestByUpdated]
  | cons r rs =>
      constructor
      · intro h
        exfalso
        simp only [latestByUpdated] at h
        cases hb : latestByUpdated rs with
        | none => rw [hb] at h; simp at h
        | some best =>
            rw [hb] at h
            dsimp only at h
            split at h <;> simp at h
      · intro h; simp at h

/-- The row picked by `latestByUpdated` is one of the input rows. -/
theorem latestByUpdated_mem (l : List SessionRow) (r : SessionRow)
    (h : latestByUpdated l = Option.some r) : r ∈ l := by
  induction l generalizing r with
  | nil => simp [latestByUpdated] at h
  | cons y ys ih =>
      simp only [latestByUpdated] at h
      cases hb : latestByUpdated ys with
      | none =>
          rw [hb] at h
          injection h with h
          rw [← h]
          exact List.mem_cons_self y ys
      | some best =>
          rw [hb] at h
          dsimp only at h
          by_cases hcond : best.updated_at > y.updated_at
          · rw [if_pos hcond] at h
            injection h with h
            rw [← h]
            exact List.mem_cons_of_mem y (ih best hb)
          · rw [if_neg hcond] at h
            injection h with h
            rw [← h]
            exact List.mem_cons_self y ys

/-- The row picked by `latestByUpdated` has the greatest `updated_at`. -/
theorem latestByUpdated_max (l : List SessionRow) (r : SessionRow)
    (h : latestByUpdated l = Option.some r) :
    ∀ x ∈ l, x.updated_at ≤ r.updated_at := by
  induction l generalizing r with
  | nil => simp [latestByUpdated] at h
  | cons y ys ih =>
      intro x hx
      simp only [latestByUpdated] at h
      cases hb : latestByUpdated ys with
      | none =>
          rw [hb] at h
          injection h with h
          have hnil : ys = [] := (latestByUpdated_eq_none ys).mp hb
          subst hnil
          rw [← h]
          rcases List.mem_cons.mp hx with hx | hx
          · rw [hx]
          · simp at hx
      | some best =>
          rw [hb] at h
          dsimp only at h
          rcases List.mem_cons.mp hx with hx | hx
          · subst hx
            by_cases hcond : best.updated_at > x.updated_at
            · rw [if_pos hcond] at h
              injection h with h
              rw [← h]
              omega
            · rw [if_neg hcond] at h
              injection h with h
              rw [← h]
          · have hax := ih best hb x hx
            by_cases hcond : best.updated_at > y.updated_at
            · rw [if_pos hcond] at h
              injection h with h
              rw [← h]
              exact hax
            · rw [if_neg hcond] at h
              injection h with h
              rw [← h]
              omega

/-- C6: `get_resumable_session` returns a stored session with status
`processing` or `paused` updated within the last seven days — never a
terminal (`completed`/`failed`) or `initialized` one, never an older one —
and among the eligible sessions it returns the most recently updated; it
returns none exactly when no eligible session exists. -/
theorem get_resumable_session_spec (m : StateManager) (now : Int) :
    (∀ r, get_resumable_session m now = Option.some r →
        r ∈ m.db.processing_state ∧
        (r.status = "processing" ∨ r.status = "paused") ∧
        now - sevenDaysSeconds < r.updated_at ∧
        r.status ≠ "completed" ∧ r.status ≠ "failed" ∧
        r.status ≠ "initialized" ∧
        ∀ x ∈ m.db.processing_state, resumeEligible now x = true →
          x.updated_at ≤ r.updated_at) ∧
    (get_resumable_session m now = Option.none ↔
        ∀ x ∈ m.db.processing_state, resumeEligible now x = false) := by
  constructor
  · intro r h
    unfold get_resumable_session at h
    have hmem := latestByUpdated_mem _ r h
    have hmax := latestByUpdated_max _ r h
    rw [List.mem_filter] at hmem
    obtain ⟨hmem, helig⟩ := hmem
    have helig2 := helig
    unfold resumeEligible at helig2
    rw [Bool.and_eq_true, Bool.or_eq_true] at helig2
    obtain ⟨hstat, htime⟩ := helig2
    simp only [beq_iff_eq] at hstat
    have htime2 : now - sevenDaysSeconds < r.updated_at := by
      simpa using htime
    refine ⟨hmem, hstat, htime2, ?_, ?_, ?_, ?_⟩
    · rcases hstat with h1 | h1 <;> rw [h1] <;> decide
    · rcases hstat with h1 | h1 <;> rw [h1] <;> decide
    · rcases hstat with h1 | h1 <;> rw [h1] <;> decide
    · intro x hx hex
      exact hmax x (List.mem_filter.mpr ⟨hx, hex⟩)
  · unfold get_resumable_session
    rw [latestByUpdated_eq_none, List.filter_eq_nil_iff]
    simp only [Bool.not_eq_true]

/-- Witness for C6: in a store holding one recent `processing` session and
one `completed` session, the returned row is in the store and carries a
resumable status. -/
theorem get_resumable_session_spec_witness :
    rowProcessing ∈ twoSessionManager.db.processing_state ∧
    (rowProcessing.status = "processing" ∨ rowProcessing.status = "paused") ∧
    (100 : Int) - sevenDaysSeconds < rowProcessing.updated_at :=
  ⟨((get_resumable_session_spec twoSessionManager 100).1 rowProcessing
      (by decide)).1,
   ((get_resumable_session_spec twoSessionManager 100).1 rowProcessing
      (by decide)).2.1,
   ((get_resumable_session_spec twoSessionManager 100).1 rowProcessing
      (by decide)).2.2.1⟩

/-- C10: with no active session (`session_id` unset), all four
session-bound mutators raise `No active session` and leave the persisted
state unchanged. -/
theorem mutators_require_active_session (m : StateManager)
    (h : sidTruthy m.session_id = false) (now : Int)
    (operation t n s fp ft fc status : String) (details err : Option String)
    (lp : LogParams) (fpp : FileParams) :
    update_progress m now operation details = .error "No active session" ∧
    log_operation m t n s lp = .error "No active session" ∧
    register_file m fp ft fc fpp = .error "No active session" ∧
    update_status m now status err = .error "No active session" ∧
    applyOp m (.updateProgress now operation details) = m ∧
    applyOp m (.logOperation t n s lp) = m ∧
    applyOp m (.registerFile fp ft fc fpp) = m ∧
    applyOp m (.updateStatus now status err) = m := by
  have h1 : update_progress m now operation details =
      .error "No active session" := by
    unfold update_progress; rw [if_pos (by simp [h])]
  have h2 : log_operation m t n s lp = .error "No active session" := by
    unfold log_operation; rw [if_pos (by simp [h])]
  have h3 : register_file m fp ft fc fpp = .error "No active session" := by
    unfold register_file; rw [if_pos (by simp [h])]
  have h4 : update_status m now status err = .error "No active session" := by
    unfold update_status; rw [if_pos (by simp [h])]
  refine ⟨h1, h2, h3, h4, ?_, ?_, ?_, ?_⟩
  · unfold applyOp runOp; dsimp only; rw [h1]
  · unfold applyOp runOp; dsimp only; rw [h2]
  · unfold applyOp runOp; dsimp only; rw [h3]
  · unfold applyOp runOp; dsimp only; rw [h4]

/-- Witness for C10 at the freshly initialized store. -/
theorem mutators_require_active_session_witness :
    update_progress emptyManager 0 "copy_master" Option.none =
      .error "No active session" ∧
    log_operation emptyManager "video" "copy_master" "completed" {} =
      .error "No active session" ∧
    register_file emptyManager "/out/a.png" "png" "stills" {} =
      .error "No active session" ∧
    update_status emptyManager 0 "processing" Option.none =
      .error "No active session" ∧
    applyOp emptyManager (.updateProgress 0 "copy_master" Option.none) =
      emptyManager :=
  ⟨(mutators_require_active_session emptyManager rfl 0 "copy_master" "video"
      "copy_master" "completed" "/out/a.png" "png" "stills" "processing"
      Option.none Option.none {} {}).1,
   (mutators_require_active_session emptyManager rfl 0 "copy_master" "video"
      "copy_master" "completed" "/out/a.png" "png" "stills" "processing"
      Option.none Option.none {} {}).2.1,
   (mutators_require_active_session emptyManager rfl 0 "copy_master" "video"
      "copy_master" "completed" "/out/a.png" "png" "stills" "processing"
      Option.none Option.none {} {}).2.2.1,
   (mutators_require_active_session emptyManager rfl 0 "copy_master" "video"
      "copy_master" "completed" "/out/a.png" "png" "stills" "processing"
      Option.none Option.none {} {}).2.2.2.1,
   (mutators_require_active_session emptyManager rfl 0 "copy_master" "video"
      "copy_master" "completed" "/out/a.png" "png" "stills" "processing"
      Option.none Option.none {} {}).2.2.2.2.1⟩

/-! ### Pipeline failure semantics (C1) -/

/-- C1 counterexample: in a run where validation, session creation and the
master copy all succeed but the optimize-master encode reports failure, the
session ends the `process_video` phase in status `processing` — not
`failed` — with no error message, and the later detect-scenes stage's
`update_progress` is recorded (`current_operation = scene_detection`,
`completed_operations = 2`). -/
theorem optimize_failure_not_fatal_cex :
    statusOf (process_video (sampleEnv true false) emptyManager).1
      (sampleEnv true false).newSessionId = "processing" ∧
    errorOf (process_video (sampleEnv true false) emptyManager).1
      (sampleEnv true false).newSessionId = Option.none ∧
    currentOpOf (process_video (sampleEnv true false) emptyManager).1
      (sampleEnv true false).newSessionId = Option.some "scene_detection" ∧
    completedOf (process_video (sampleEnv true false) emptyManager).1
      (sampleEnv true false).newSessionId = 2 := by
  decide

/-- C1 amended: a stage failure that raises (the copy-master stage) marks
the session `failed` with the non-empty exception text and aborts the
remaining stages with no further progress recorded; an optimize-master
encoding failure, however, is reported as a boolean and only logged — the
run continues, only the `optimize_master` progress update is skipped, and
the later scene-detection stage still records progress. -/
theorem stage_failure_handling (env : PipelineEnv)
    (hval : env.validateOk = true) (hne : env.newSessionId ≠ "") :
    (env.copyMasterOk = false →
        statusOf (process_video env emptyManager).1 env.newSessionId =
          "failed" ∧
        errorOf (process_video env emptyManager).1 env.newSessionId =
          Option.some "Failed to copy master" ∧
        "Failed to copy master" ≠ "" ∧
        completedOf (process_video env emptyManager).1 env.newSessionId = 0) ∧
    (env.copyMasterOk = true → env.optimizeMasterOk = false →
      ∀ bs, env.detectResult = .ok bs →
        statusOf (process_video env emptyManager).1 env.newSessionId =
          "processing" ∧
        errorOf (process_video env emptyManager).1 env.newSessionId =
          Option.none ∧
        currentOpOf (process_video env emptyManager).1 env.newSessionId =
          Option.some "scene_detection" ∧
        completedOf (process_video env emptyManager).1 env.newSessionId =
          2) := by
  have htr : (env.newSessionId == "") = false := by simp [hne]
  constructor
  · intro hcopy
    refine ⟨?_, ?_, by decide, ?_⟩ <;>
      simp [process_video, processVideoBody, pipelineParams, create_session,
        update_status, update_progress, processVideoAfterOptimize,
        statusRowUpdate, stampRowUpdate, progressRowUpdate, sidTruthy,
        activeSid, statusOf, errorOf, currentOpOf, completedOf,
        completedOfRows, sessionRow?, List.find?, emptyManager, hval, hcopy,
        htr]
  · intro hcopy hopt bs hdet
    refine ⟨?_, ?_, ?_, ?_⟩ <;>
      simp [process_video, processVideoBody, pipelineParams, create_session,
        update_status, update_progress, processVideoAfterOptimize,
        statusRowUpdate, stampRowUpdate, progressRowUpdate, sidTruthy,
        activeSid, statusOf, errorOf, currentOpOf, completedOf,
        completedOfRows, sessionRow?, List.find?, emptyManager, hval, hcopy,
        hopt, hdet, htr]

/-- Witness for C1 at the concrete run fixture. -/
theorem stage_failure_handling_witness :
    statusOf (process_video (sampleEnv true false) emptyManager).1
      (sampleEnv true false).newSessionId = "processing" ∧
    completedOf (process_video (sampleEnv true false) emptyManager).1
      (sampleEnv true false).newSessionId = 2 :=
  ⟨((stage_failure_handling (sampleEnv true false) rfl (by decide)).2 rfl rfl
      [sampleBoundary] rfl).1,
   ((stage_failure_handling (sampleEnv true false) rfl (by decide)).2 rfl rfl
      [sampleBoundary] rfl).2.2.2⟩

/-! ### Batch executor (C2, C9) -/

/-- C9: a batch with no enabled file returns immediately with
`success = false`, the error `No files selected for processing` and zero
counts, without creating the output directory, dispatching anything to the
compositor, or writing the processing log. -/
theorem process_all_no_enabled_files (env : BatchEnv)
    (media_files : List MediaFile) (project_name output_dir : String)
    (par : Bool) (mw : Int)
    (h : media_files.filter (fun f => f.enabled) = []) :
    process_all env media_files project_name output_dir par mw =
      ({ success := false
         error := Option.some "No files selected for processing"
         processed := 0, failed := 0, skipped := 0 },
       { dirCreated := false, logWritten := false, dispatched := [] }) := by
  simp [process_all, h]

/-- Witness for C9: a single disabled file. -/
theorem process_all_no_enabled_files_witness :
    process_all idleBatchEnv [disabledFileA] "proj" "/out" true 4 =
      ({ success := false
         error := Option.some "No files selected for processing"
         processed := 0, failed := 0, skipped := 0 },
       { dirCreated := false, logWritten := false, dispatched := [] }) :=
  process_all_no_enabled_files idleBatchEnv [disabledFileA] "proj" "/out"
    true 4 (by decide)

/-- C2 (bug exhibit): one enabled image and one enabled video with
cancellation observed before the first dispatch — the image is counted
`skipped`, but the video block is skipped entirely without counting its
items, so `processed + failed + skipped = 1` against 2 enabled items, even
though the written log lists the video as SKIPPED. -/
theorem batch_cancel_drops_videos_from_counts :
    (process_all cancelledBatchEnv [imageFileA, videoFileA] "p" "/out" true
        4).1.processed = 0 ∧
    (process_all cancelledBatchEnv [imageFileA, videoFileA] "p" "/out" true
        4).1.failed = 0 ∧
    (process_all cancelledBatchEnv [imageFileA, videoFileA] "p" "/out" true
        4).1.skipped = 1 ∧
    (process_all cancelledBatchEnv [imageFileA, videoFileA] "p" "/out" true
        4).1.total = 2 ∧
    (process_all cancelledBatchEnv [imageFileA, videoFileA] "p" "/out" true
        4).1.cancelled = true ∧
    (([imageFileA, videoFileA].filter (fun f => f.enabled)).length : Int)
      = 2 ∧
    (process_all cancelledBatchEnv [imageFileA, videoFileA] "p" "/out" true
          4).1.processed +
        (process_all cancelledBatchEnv [imageFileA, videoFileA] "p" "/out"
            true 4).1.failed +
        (process_all cancelledBatchEnv [imageFileA, videoFileA] "p" "/out"
            true 4).1.skipped ≠ 2 ∧
    fileLogStatus cancelledBatchEnv
      (process_all cancelledBatchEnv [imageFileA, videoFileA] "p" "/out" true
        4).2.dispatched videoFileA = "SKIPPED" := by
  decide

end VideoArchive
